import Mathlib

/-!
Verification development for the Project-Link repository.

The Python sources under src/ are shallowly embedded: each Python function
relevant to a verified property is translated into an executable Lean
definition.  Stored timestamp strings are represented by their ISO-8601
parse outcome (an instant on the rational time line, in seconds), Python
floats by rationals, SQL tables by lists of rows, and the per-operation
connection discipline by pure state passing with Except for raised errors.
-/

namespace Config

/-- Default of PL_HABIT_INITIAL_CONFIDENCE in src/config.py (environment absent). -/
def PL_HABIT_INITIAL_CONFIDENCE : ℚ := 1/2

/-- Default of PL_HABIT_BOOST in src/config.py (environment absent). -/
def PL_HABIT_BOOST : ℚ := 1/10

/-- Default of PL_DAEMON_HIGH_PRIORITY_INTERVAL (minutes) in src/config.py. -/
def PL_DAEMON_HIGH_PRIORITY_INTERVAL : Int := 15

/-- Default of PL_DAEMON_HIGH_PRIORITY_MAX_COUNT in src/config.py. -/
def PL_DAEMON_HIGH_PRIORITY_MAX_COUNT : Int := 5

/-- Default of PL_DAEMON_MEDIUM_PRIORITY_INTERVAL (minutes) in src/config.py. -/
def PL_DAEMON_MEDIUM_PRIORITY_INTERVAL : Int := 30

/-- Default of PL_DAEMON_MEDIUM_PRIORITY_MAX_COUNT in src/config.py. -/
def PL_DAEMON_MEDIUM_PRIORITY_MAX_COUNT : Int := 3

end Config

namespace DB

/-- A stored timestamp string, represented by its ISO-8601 parse outcome.
emptyStr is the empty (falsy) string, invalid a non-empty string rejected by
datetime.fromisoformat, aware t a string carrying an explicit UTC offset and
denoting the instant t (seconds on the rational time line), and naive t a
string without an offset that denotes the instant t once the local zone is
attached (as utils/helpers.parse_time and database.get_upcoming_tasks do). -/
inductive TimeStr
  | emptyStr
  | invalid
  | aware (t : ℚ)
  | naive (t : ℚ)
  deriving DecidableEq, Repr

/-- Embedding of utils/helpers.parse_time on the TimeStr abstraction: the
empty string and unparsable strings raise ValueError; an aware string yields
its instant; a naive string yields the instant obtained by attaching the
local zone. -/
def parse_time : TimeStr → Except String ℚ
  | .emptyStr => .error "时间字符串不能为空"
  | .invalid => .error "无法解析时间字符串"
  | .aware t => .ok t
  | .naive t => .ok t

/-- One row of the tasks table (schema of src/database.py after migration). -/
structure TaskRow where
  id : Nat
  content : String
  due_time : Option TimeStr
  category : Option String
  priority : Int
  status : String
  created_at : TimeStr
  last_notified_at : Option TimeStr
  notification_count : Int
  deriving DecidableEq, Repr

/-- The tasks table, as the list of its rows in rowid order. -/
abbrev TaskStore := List TaskRow

/-- Next AUTOINCREMENT id for the tasks table. -/
def nextTaskId (store : TaskStore) : Nat :=
  (store.map (fun r => r.id)).foldr max 0 + 1

/-- Embedding of database.add_task: priority outside [1,5] raises ValueError
before any INSERT; otherwise a new row is inserted with status defaulted to
pending, no notification bookkeeping, and created_at = get_current_time().
The insert returns the new row id. -/
def add_task (now : ℚ) (store : TaskStore) (content : String)
    (due_time : Option TimeStr) (category : Option String) (priority : Int) :
    Except String (TaskStore × Nat) :=
  if ¬ (1 ≤ priority ∧ priority ≤ 5) then
    .error "priority 必须在 1 到 5 之间"
  else
    let newId := nextTaskId store
    .ok (store ++ [{ id := newId, content := content, due_time := due_time,
                     category := category, priority := priority,
                     status := "pending", created_at := .aware now,
                     last_notified_at := none, notification_count := 0 }], newId)

/-- Embedding of database.update_task_status: status outside the four-value
enumeration raises ValueError; otherwise UPDATE tasks SET status WHERE id,
which rewrites every row whose id matches and touches nothing else. -/
def update_task_status (store : TaskStore) (task_id : Nat) (status : String) :
    Except String TaskStore :=
  if ¬ (status = "pending" ∨ status = "done" ∨ status = "ignored" ∨ status = "cancelled") then
    .error "status 必须是 pending, done, ignored 或 cancelled"
  else
    .ok (store.map (fun r => if r.id = task_id then { r with status := status } else r))

/-- Embedding of database.update_task_due_time: an unconditional
UPDATE tasks SET due_time WHERE id (no validation, no error path). -/
def update_task_due_time (store : TaskStore) (task_id : Nat)
    (new_due_time : Option TimeStr) : TaskStore :=
  store.map (fun r => if r.id = task_id then { r with due_time := new_due_time } else r)

/-- Embedding of database.update_task_notification_time: sets
last_notified_at to get_current_time() and increments notification_count,
for the row whose id matches. -/
def update_task_notification_time (now : ℚ) (store : TaskStore) (task_id : Nat) :
    TaskStore :=
  store.map (fun r =>
    if r.id = task_id then
      { r with last_notified_at := some (.aware now),
               notification_count := r.notification_count + 1 }
    else r)

/-- Embedding of database.get_task_by_id: SELECT ... WHERE id, none if absent. -/
def get_task_by_id (store : TaskStore) (task_id : Nat) : Option TaskRow :=
  store.find? (fun r => r.id = task_id)

/-- The instant denoted by a stored due time when it parses, none otherwise
(covers the NULL, empty-string and unparsable cases). -/
def dueInstant : Option TimeStr → Option ℚ
  | some (.aware t) => some t
  | some (.naive t) => some t
  | _ => none

/-- Embedding of database.get_upcoming_tasks: the SQL fetch keeps rows with
the requested status and a non-NULL due_time; the Python loop then skips
falsy and unparsable due-time strings, attaches the local zone to naive ones,
and keeps exactly the rows whose instant t satisfies now < t <= now + hours
(future_time = now + timedelta(hours=hours)). -/
def get_upcoming_tasks (now : ℚ) (hours : Int) (status : String)
    (store : TaskStore) : TaskStore :=
  let fetched := store.filter (fun r => r.status = status ∧ r.due_time.isSome)
  fetched.filter (fun r =>
    match r.due_time with
    | some (.aware t) => now < t ∧ t ≤ now + hours * 3600
    | some (.naive t) => now < t ∧ t ≤ now + hours * 3600
    | _ => false)

/-- The shape of the status CHECK constraint in the stored CREATE text of the
tasks table, as _migrate_tasks_status_check classifies it by substring match:
the known older three-value form, the current four-value form that already
accepts cancelled, or an unknown hand-modified form. -/
inductive StatusCheckForm
  | threeValued
  | fourValued
  | unknownForm
  deriving DecidableEq, Repr

/-- Schema state of the tasks table: the status CHECK form and whether the
migration-added notification columns are present. -/
structure TasksTableSchema where
  statusCheck : StatusCheckForm
  hasLastNotifiedAt : Bool
  hasNotificationCount : Bool
  deriving DecidableEq, Repr

/-- Schema state of the whole store: the tasks table, the migration-added
columns of preferences and memory_logs, and the list of index names. -/
structure StoreSchema where
  tasks : TasksTableSchema
  prefsHasCreatedAt : Bool
  memoryHasIsProcessed : Bool
  indexes : List String
  deriving DecidableEq, Repr

/-- A sqlite3.OperationalError raised during migration: a SELECT naming a
column the table does not have, or an ALTER TABLE ADD COLUMN naming one it
already has. -/
inductive MigError
  | noSuchColumn (c : String)
  | duplicateColumn (c : String)
  deriving DecidableEq, Repr

/-- The seven indexes init_db creates. -/
def baseIndexes : List String :=
  ["idx_tasks_status", "idx_tasks_due_time", "idx_tasks_category",
   "idx_preferences_key", "idx_preferences_confidence",
   "idx_memory_logs_timestamp", "idx_memory_logs_context_tag"]

/-- The indexes that live on the tasks table; DROP TABLE tasks drops them. -/
def tasksIndexes : List String :=
  ["idx_tasks_status", "idx_tasks_due_time", "idx_tasks_category",
   "idx_tasks_last_notified_at", "idx_tasks_notification_count"]

/-- CREATE INDEX IF NOT EXISTS: appends the name unless already present. -/
def createIndexIfNotExists (idxs : List String) (n : String) : List String :=
  if n ∈ idxs then idxs else idxs ++ [n]

/-- Embedding of database._migrate_tasks_status_check.  The current
four-value CREATE text is left alone; an unknown form is skipped with a
warning; the known older three-value form triggers the rebuild, whose
INSERT INTO tasks_new ... SELECT names last_notified_at and
notification_count on the old tasks table, and therefore raises
OperationalError when the old table does not have them yet.  A successful
rebuild drops the old table (and with it its indexes) and renames the new
four-value table, which carries both notification columns, into place. -/
def migrate_tasks_status_check (s : StoreSchema) : Except MigError StoreSchema :=
  match s.tasks.statusCheck with
  | .fourValued => .ok s
  | .unknownForm => .ok s
  | .threeValued =>
    if ¬ s.tasks.hasLastNotifiedAt then .error (.noSuchColumn "last_notified_at")
    else if ¬ s.tasks.hasNotificationCount then .error (.noSuchColumn "notification_count")
    else
      .ok { s with
            tasks := { statusCheck := .fourValued, hasLastNotifiedAt := true,
                       hasNotificationCount := true },
            indexes := s.indexes.filter (fun n => ¬ n ∈ tasksIndexes) }

/-- ALTER TABLE ADD COLUMN: raises OperationalError on a duplicate column. -/
def alterAddColumn (has : Bool) (c : String) : Except MigError Unit :=
  if has then .error (.duplicateColumn c) else .ok ()

/-- Embedding of database.migrate_database.  The existing column lists are
read first (PRAGMA table_info), then _migrate_tasks_status_check runs, then
each missing column, judged by the pre-read (stale) lists, is added, and
finally the three new indexes are created with IF NOT EXISTS. -/
def migrate_database (s : StoreSchema) : Except MigError StoreSchema := do
  let hadLNA := s.tasks.hasLastNotifiedAt
  let hadNC := s.tasks.hasNotificationCount
  let hadPrefCreated := s.prefsHasCreatedAt
  let hadMemProcessed := s.memoryHasIsProcessed
  let s ← migrate_tasks_status_check s
  let s ←
    if hadLNA then pure s
    else do
      alterAddColumn s.tasks.hasLastNotifiedAt "last_notified_at"
      pure { s with tasks := { s.tasks with hasLastNotifiedAt := true } }
  let s ←
    if hadNC then pure s
    else do
      alterAddColumn s.tasks.hasNotificationCount "notification_count"
      pure { s with tasks := { s.tasks with hasNotificationCount := true } }
  let s ←
    if hadPrefCreated then pure s
    else do
      alterAddColumn s.prefsHasCreatedAt "created_at"
      pure { s with prefsHasCreatedAt := true }
  let s ←
    if hadMemProcessed then pure s
    else do
      alterAddColumn s.memoryHasIsProcessed "is_processed"
      pure { s with memoryHasIsProcessed := true }
  pure { s with indexes :=
           (["idx_tasks_last_notified_at", "idx_tasks_notification_count",
             "idx_memory_logs_is_processed"]).foldl createIndexIfNotExists s.indexes }

/-- Embedding of database.init_db on a store schema (none = no database file
yet).  CREATE TABLE IF NOT EXISTS builds the current tables on a fresh store
(the current tasks CREATE text carries the four-value status CHECK but not
the notification columns) and leaves an existing schema alone; the seven base
indexes are created with IF NOT EXISTS; then migrate_database runs. -/
def init_db (s : Option StoreSchema) : Except MigError StoreSchema :=
  let s₀ : StoreSchema :=
    match s with
    | none =>
      { tasks := { statusCheck := .fourValued, hasLastNotifiedAt := false,
                   hasNotificationCount := false },
        prefsHasCreatedAt := false, memoryHasIsProcessed := false, indexes := [] }
    | some sch => sch
  let s₁ := { s₀ with indexes := baseIndexes.foldl createIndexIfNotExists s₀.indexes }
  migrate_database s₁

/-- The store schema the pre-migration generation of this code base left
behind: a three-value status CHECK, none of the migration-added columns, and
the seven base indexes. -/
def olderThreeValuedStore : StoreSchema :=
  { tasks := { statusCheck := .threeValued, hasLastNotifiedAt := false,
               hasNotificationCount := false },
    prefsHasCreatedAt := false, memoryHasIsProcessed := false,
    indexes := baseIndexes }

/-- A three-value store whose notification columns were already added by an
earlier run of the column-add migration steps. -/
def threeValuedStoreWithColumns : StoreSchema :=
  { tasks := { statusCheck := .threeValued, hasLastNotifiedAt := true,
               hasNotificationCount := true },
    prefsHasCreatedAt := true, memoryHasIsProcessed := true,
    indexes := baseIndexes ++ ["idx_tasks_last_notified_at",
      "idx_tasks_notification_count", "idx_memory_logs_is_processed"] }

/-- One row of the preferences table (schema of src/database.py). -/
structure PrefRow where
  key : String
  value : String
  confidence : ℚ
  source : String
  created_at : ℚ
  updated_at : ℚ
  deriving DecidableEq, Repr

/-- The preferences table, as the list of its rows. -/
abbrev PrefStore := List PrefRow

/-- Embedding of database.update_habit: boost outside [0,1] or an
unrecognized source raises ValueError; if the key exists its confidence
becomes min 1 (old + boost) and value/source/updated_at are overwritten;
otherwise a new row is inserted with confidence
min 1 (PL_HABIT_INITIAL_CONFIDENCE + boost) and created_at = updated_at = now. -/
def update_habit (now : ℚ) (store : PrefStore) (key value : String)
    (boost : ℚ) (source : String) : Except String PrefStore :=
  if ¬ (0 ≤ boost ∧ boost ≤ 1) then
    .error "boost 必须在 0.0 到 1.0 之间"
  else if ¬ (source = "用户直说" ∨ source = "AI推断") then
    .error "source 必须是 用户直说 或 AI推断"
  else
    match store.find? (fun p => p.key = key) with
    | some r =>
      .ok (store.map (fun p =>
        if p.key = key then
          { p with value := value, confidence := min 1 (r.confidence + boost),
                   source := source, updated_at := now }
        else p))
    | none =>
      .ok (store ++ [{ key := key, value := value,
                       confidence := min 1 (Config.PL_HABIT_INITIAL_CONFIDENCE + boost),
                       source := source, created_at := now, updated_at := now }])

end DB

namespace Daemon

/-- Embedding of main_daemon.ProjectLinkApp.should_notify_task under the
default configuration.  The task dict supplies priority, notification_count
and the last_notified_at string; now is datetime.now().astimezone().
A falsy (absent or empty) last_notified_at skips the cooldown check, an
unparsable one is caught and notification allowed, and a parsed one
suppresses when now minus the parsed instant is below the tier interval. -/
def should_notify_task (now : ℚ) (task : DB.TaskRow) : Bool :=
  if task.priority ≥ 4 then
    if task.notification_count ≥ Config.PL_DAEMON_HIGH_PRIORITY_MAX_COUNT then false
    else
      match task.last_notified_at with
      | none => true
      | some ts =>
        if ts = .emptyStr then true
        else
          match DB.parse_time ts with
          | .error _ => true
          | .ok t₀ =>
            if now - t₀ < (Config.PL_DAEMON_HIGH_PRIORITY_INTERVAL : ℚ) * 60 then false
            else true
  else if task.priority = 3 then
    if task.notification_count ≥ Config.PL_DAEMON_MEDIUM_PRIORITY_MAX_COUNT then false
    else
      match task.last_notified_at with
      | none => true
      | some ts =>
        if ts = .emptyStr then true
        else
          match DB.parse_time ts with
          | .error _ => true
          | .ok t₀ =>
            if now - t₀ < (Config.PL_DAEMON_MEDIUM_PRIORITY_INTERVAL : ℚ) * 60 then false
            else true
  else
    task.notification_count = 0

/-- The clamp applied by main_daemon.handle_dialog_response before calling
postpone_task: minutes = min(minutes, 4320). -/
def clamp_postpone_minutes (minutes : Int) : Int := min minutes 4320

/-- Embedding of main_daemon.ProjectLinkApp.postpone_task: a missing task, a
NULL due_time, or a due_time that parse_time rejects returns False and leaves
the store untouched; otherwise the new due time is the parsed original due
time plus the given minutes (never now plus minutes), written back through
update_task_due_time, and the notification bookkeeping is refreshed through
update_task_notification_time. -/
def postpone_task (now : ℚ) (store : DB.TaskStore) (task_id : Nat)
    (minutes : Int) : Bool × DB.TaskStore :=
  match DB.get_task_by_id store task_id with
  | none => (false, store)
  | some task =>
    match task.due_time with
    | none => (false, store)
    | some ts =>
      match DB.parse_time ts with
      | .error _ => (false, store)
      | .ok original_due =>
        let new_due : ℚ := original_due + minutes * 60
        let s₁ := DB.update_task_due_time store task_id (some (.aware new_due))
        let s₂ := DB.update_task_notification_time now s₁ task_id
        (true, s₂)

end Daemon

namespace Interp

/-- A Python value passed as the priority field of an add_task payload: None,
an int, or a string that int() either parses to the given integer or rejects. -/
inductive PriVal
  | noneV
  | intV (n : Int)
  | strV (parsed : Option Int)
  deriving DecidableEq, Repr

/-- Embedding of interpreter.validate_priority: None yields 3; a value int()
accepts is kept when it lies in [1,5] and coerced to 3 with a logged warning
otherwise; a value int() rejects (ValueError/TypeError) yields 3 with a
logged warning. -/
def validate_priority : PriVal → Int
  | .noneV => 3
  | .intV n => if 1 ≤ n ∧ n ≤ 5 then n else 3
  | .strV none => 3
  | .strV (some n) => if 1 ≤ n ∧ n ≤ 5 then n else 3

namespace Json

/-- A value json.loads can produce, abstracted to what _extract_first_json
inspects: whether it is a dict, with a label distinguishing concrete values. -/
inductive JVal
  | dict (label : Nat)
  | nonDict (label : Nat)
  deriving DecidableEq, Repr

/-- True when the fast path of _extract_first_json does not return: the whole
text is not a valid JSON object (json.loads raises, or yields a non-dict). -/
def fastPathFails (r : Option JVal) : Bool :=
  match r with
  | some (.dict _) => false
  | _ => true

/-- The scanning loop of _extract_first_json from the first opening brace on,
with json.loads supplied as the function loads (none models a raised
exception).  State: remaining characters, brace depth, whether inside a JSON
string, whether just after a backslash in a string, and the characters
consumed so far (text from the first brace through the current character).
On a closing brace at depth zero the snippet so far is fed to loads: a dict
is returned, an exception returns None, and a non-dict value falls through
so the loop keeps scanning (the snippet still starting at the same brace). -/
def scanLoop (loads : List Char → Option JVal) :
    List Char → Int → Bool → Bool → List Char → Option JVal
  | [], _, _, _, _ => none
  | ch :: rest, depth, inStr, esc, seen =>
    let seen' := seen ++ [ch]
    if inStr then
      if esc then scanLoop loads rest depth true false seen'
      else if ch = '\\' then scanLoop loads rest depth true true seen'
      else if ch = '"' then scanLoop loads rest depth false false seen'
      else scanLoop loads rest depth true false seen'
    else
      if ch = '"' then scanLoop loads rest depth true false seen'
      else if ch = '\x7b' then scanLoop loads rest (depth + 1) false false seen'
      else if ch = '\x7d' then
        if depth - 1 = 0 then
          match loads seen' with
          | some (.dict l) => some (.dict l)
          | none => none
          | some (.nonDict _) => scanLoop loads rest (depth - 1) false false seen'
        else scanLoop loads rest (depth - 1) false false seen'
      else scanLoop loads rest depth false false seen'

/-- The loads-independent part of the scan: the first balanced brace span
(from the first opening brace through the closing brace that returns the
depth to zero, tracking strings and escapes exactly as scanLoop does), or
none when the braces never balance. -/
def spanLoop : List Char → Int → Bool → Bool → List Char → Option (List Char)
  | [], _, _, _, _ => none
  | ch :: rest, depth, inStr, esc, seen =>
    let seen' := seen ++ [ch]
    if inStr then
      if esc then spanLoop rest depth true false seen'
      else if ch = '\\' then spanLoop rest depth true true seen'
      else if ch = '"' then spanLoop rest depth false false seen'
      else spanLoop rest depth true false seen'
    else
      if ch = '"' then spanLoop rest depth true false seen'
      else if ch = '\x7b' then spanLoop rest (depth + 1) false false seen'
      else if ch = '\x7d' then
        if depth - 1 = 0 then some seen'
        else spanLoop rest (depth - 1) false false seen'
      else spanLoop rest depth false false seen'

/-- The first balanced brace span of a text, starting at its first opening
brace; none when there is no opening brace or the span never closes. -/
def firstBalancedSpan (text : List Char) : Option (List Char) :=
  match text.findIdx? (fun c => c = '\x7b') with
  | none => none
  | some start => spanLoop (text.drop start) 0 false false []

/-- Embedding of interpreter._extract_first_json on the character list of the
LLM response: empty text yields None; the fast path returns the whole text
when json.loads parses it to a dict; otherwise the scan starts at the first
opening brace (None when there is none) with depth 0 outside any string. -/
def extract_first_json (loads : List Char → Option JVal) (text : List Char) :
    Option JVal :=
  if text.isEmpty then none
  else
    match loads text with
    | some (.dict l) => some (.dict l)
    | _ =>
      match text.findIdx? (fun c => c = '\x7b') with
      | none => none
      | some start => scanLoop loads (text.drop start) 0 false false []

end Json

end Interp

namespace Logger

/-- A configured logger as src/utils/logger.py builds it: its name and the
path its file handler appends to. -/
structure LoggerConfig where
  name : String
  logFile : String
  deriving DecidableEq, Repr

/-- Embedding of utils/logger.setup_logger: whatever the name, the file
handler is opened on logs/app.log (the only file path the module mentions). -/
def setup_logger (name : String) : LoggerConfig :=
  { name := name, logFile := "logs/app.log" }

/-- The parameter list of utils/logger.get_logger: def get_logger(name). -/
def get_logger_params : List String := ["name"]

/-- Python call semantics for get_logger(positional..., keyword=...): a
keyword argument that names no parameter of the function raises TypeError
before the body runs; otherwise the body delegates to setup_logger(name). -/
def call_get_logger (pos : List String) (kwargs : List (String × String)) :
    Except String LoggerConfig :=
  if kwargs.any (fun kv => ¬ kv.1 ∈ get_logger_params) then
    .error "TypeError: get_logger() got an unexpected keyword argument"
  else
    match pos with
    | n :: _ => .ok (setup_logger n)
    | [] =>
      match kwargs.find? (fun kv => kv.1 = "name") with
      | some kv => .ok (setup_logger kv.2)
      | none => .ok (setup_logger "project_link")

/-- The call src/main_daemon.py line 23 makes when the daemon requests its
logger: get_logger("daemon", log_file="daemon.log"). -/
def daemon_logger_request : Except String LoggerConfig :=
  call_get_logger ["daemon"] [("log_file", "daemon.log")]

end Logger

namespace Helpers

/-- Python regex whitespace class for the characters this development uses
(the ASCII part of \x5cs: space, tab, newline, carriage return, vertical tab,
form feed). -/
def pyIsSpace (c : Char) : Bool :=
  c = ' ' ∨ c = '\t' ∨ c = '\n' ∨ c = '\r' ∨ c = '\x0b' ∨ c = '\x0c'

/-- The unit letters of the offset regex character class, lowercased. -/
def offsetUnits : List Char := ['s', 'm', 'h', 'd', 'w']

/-- Seconds per offset unit, as the if/elif chain of parse_offset assigns
them: s seconds, m minutes, h hours, d days, w weeks. -/
def unitSeconds : Char → Int
  | 's' => 1
  | 'm' => 60
  | 'h' => 3600
  | 'd' => 86400
  | 'w' => 7 * 86400
  | _ => 0

/-- Value of a digit string, as Python int() reads a string of digits. -/
def digitsToNat (ds : List Char) : Nat :=
  ds.foldl (fun a c => 10 * a + (c.toNat - '0'.toNat)) 0

/-- The sign, digit group and lowercased unit letter a successful match of
_OFFSET_RE against the character list yields.  The pattern is
anchored sign, digits and one unit letter, each of the four gaps allowing
whitespace, with re.IGNORECASE making the unit letter case-insensitive;
group(3).lower() is what parse_offset goes on to inspect. -/
structure OffsetMatch where
  sign : Char
  digits : List Char
  unit : Char
  deriving DecidableEq, Repr

/-- Matching _OFFSET_RE - the regex with pattern
anchored-start, \x5cs*, [+-], \x5cs*, \x5cd+, \x5cs*, [smhdw], \x5cs*,
anchored-end, compiled with re.IGNORECASE - against a character list. -/
def matchOffset (cs : List Char) : Option OffsetMatch :=
  match cs.dropWhile pyIsSpace with
  | [] => none
  | c :: rest =>
    if c = '+' ∨ c = '-' then
      if ((rest.dropWhile pyIsSpace).takeWhile Char.isDigit).isEmpty then none
      else
        match ((rest.dropWhile pyIsSpace).dropWhile Char.isDigit).dropWhile pyIsSpace with
        | [] => none
        | u :: tail =>
          if u.toLower ∈ offsetUnits ∧ (tail.dropWhile pyIsSpace).isEmpty then
            some { sign := c,
                   digits := (rest.dropWhile pyIsSpace).takeWhile Char.isDigit,
                   unit := u.toLower }
          else none
    else none

/-- Embedding of utils/helpers.parse_offset on the character list of the
input string: a string that strips to nothing raises ValueError, a string the
regex rejects raises ValueError, and a match yields the magnitude times the
unit seconds, negated when the sign is the minus character.  The result is
the timedelta in whole seconds. -/
def parse_offset (cs : List Char) : Except String Int :=
  if (cs.dropWhile pyIsSpace).isEmpty then .error "offset 不能为空"
  else
    match matchOffset cs with
    | none => .error "offset 格式不合法"
    | some m =>
      let num : Int := digitsToNat m.digits
      let seconds := num * unitSeconds m.unit
      .ok (if m.sign = '-' then -seconds else seconds)

/-- The pattern the specification text names: anchored-start, [+-], \x5cd+,
[smhdw], anchored-end, with no whitespace allowance and a case-sensitive
(lowercase) unit class. -/
def specOffsetPattern (cs : List Char) : Bool :=
  match cs with
  | [] => false
  | c :: rest =>
    (c = '+' || c = '-') &&
    !(rest.takeWhile Char.isDigit).isEmpty &&
    (match rest.dropWhile Char.isDigit with
     | [u] => decide (u ∈ offsetUnits)
     | _ => false)

/-- The relaxed language parse_offset actually accepts, stated as a
decomposition: optional whitespace, a sign, optional whitespace, one or more
digits, optional whitespace, one unit letter in either case, optional
trailing whitespace; the value is the digit magnitude times the unit seconds,
negated for a minus sign. -/
def RelaxedOffset (cs : List Char) (v : Int) : Prop :=
  ∃ w₁ sgn w₂ ds w₃ u w₄,
    cs = w₁ ++ sgn :: (w₂ ++ ds ++ w₃ ++ u :: w₄) ∧
    (sgn = '+' ∨ sgn = '-') ∧
    (∀ c ∈ w₁, pyIsSpace c) ∧
    (∀ c ∈ w₂, pyIsSpace c) ∧
    ds ≠ [] ∧ (∀ c ∈ ds, c.isDigit) ∧
    (∀ c ∈ w₃, pyIsSpace c) ∧
    u.toLower ∈ offsetUnits ∧
    (∀ c ∈ w₄, pyIsSpace c) ∧
    v = (if sgn = '-' then -1 else 1) * (digitsToNat ds : Int) * unitSeconds u.toLower

end Helpers

/-! Helper lemmas shared by the claim theorems. -/

/-- Dropping a satisfied prefix continues into the suffix. -/
theorem dropWhile_append_all {α : Type} (p : α → Bool) (xs l : List α)
    (h : ∀ x ∈ xs, p x = true) : (xs ++ l).dropWhile p = l.dropWhile p := by
  induction xs with
  | nil => rfl
  | cons a t ih =>
    rw [List.cons_append, List.dropWhile_cons, if_pos (h a (List.mem_cons_self a t))]
    exact ih fun x hx => h x (List.mem_cons_of_mem a hx)

/-- Taking across a satisfied prefix keeps it whole. -/
theorem takeWhile_append_all {α : Type} (p : α → Bool) (xs l : List α)
    (h : ∀ x ∈ xs, p x = true) : (xs ++ l).takeWhile p = xs ++ l.takeWhile p := by
  induction xs with
  | nil => rfl
  | cons a t ih =>
    rw [List.cons_append, List.takeWhile_cons, if_pos (h a (List.mem_cons_self a t))]
    rw [List.cons_append, ih fun x hx => h x (List.mem_cons_of_mem a hx)]

/-- A digit character is not regex whitespace. -/
theorem isDigit_not_pyIsSpace (c : Char) (h : c.isDigit = true) :
    Helpers.pyIsSpace c = false := by
  simp only [Helpers.pyIsSpace, decide_eq_false_iff_not]
  rintro (rfl | rfl | rfl | rfl | rfl | rfl) <;> exact absurd h (by decide)

/-- A regex-whitespace character is not a digit. -/
theorem pyIsSpace_not_isDigit (c : Char) (h : Helpers.pyIsSpace c = true) :
    c.isDigit = false := by
  by_contra hd
  rw [isDigit_not_pyIsSpace c (by revert hd; cases c.isDigit <;> simp)] at h
  exact absurd h (by decide)

/-- A character whose lowercase form is an offset unit letter is neither a
digit nor regex whitespace. -/
theorem unit_char_not_digit_not_space (u : Char) (hu : u.toLower ∈ Helpers.offsetUnits) :
    u.isDigit = false ∧ Helpers.pyIsSpace u = false := by
  by_cases hcase : u.toNat ≥ 65 ∧ u.toNat ≤ 90
  · constructor
    · simp only [Char.isDigit, Bool.and_eq_false_imp, decide_eq_true_eq,
        decide_eq_false_iff_not]
      intro h48
      have h1 : u.toNat ≤ 90 := hcase.2
      have h2 : 65 ≤ u.toNat := hcase.1
      intro h57
      have h3 : u.toNat ≤ 57 := by
        have h4 : u.toNat ≤ (57 : UInt32).toNat := h57
        simpa using h4
      omega
    · simp only [Helpers.pyIsSpace, decide_eq_false_iff_not]
      rintro (rfl | rfl | rfl | rfl | rfl | rfl) <;> exact absurd hcase (by decide)
  · rw [Char.toLower, if_neg hcase] at hu
    simp only [Helpers.offsetUnits, List.mem_cons, List.not_mem_nil, or_false] at hu
    rcases hu with rfl | rfl | rfl | rfl | rfl <;> exact ⟨by decide, by decide⟩

/-- Forward half of the claim C7 characterization: a successful parse
exhibits the relaxed sign-digits-unit decomposition with the matching
value. -/
theorem parse_offset_ok_forward (cs : List Char) (v : Int)
    (h : Helpers.parse_offset cs = .ok v) : Helpers.RelaxedOffset cs v := by
  unfold Helpers.parse_offset at h
  split_ifs at h with hemp
  split at h
  · exact absurd h (by simp)
  · rename_i m hm
    injection h with hv
    unfold Helpers.matchOffset at hm
    split at hm
    · exact absurd hm (by simp)
    · rename_i c rest hdw
      split_ifs at hm with hsign hdig
      split at hm
      · exact absurd hm (by simp)
      · rename_i u tail hdd
        split_ifs at hm with hcond
        injection hm with hm2
        subst hm2
        dsimp only at hv
        have hcs : cs = cs.takeWhile Helpers.pyIsSpace ++ (c :: rest) := by
          have h₀ :=
            (List.takeWhile_append_dropWhile
              (p := Helpers.pyIsSpace) (l := cs)).symm
          rw [hdw] at h₀
          exact h₀
        have hrest : rest = rest.takeWhile Helpers.pyIsSpace ++
            ((rest.dropWhile Helpers.pyIsSpace).takeWhile Char.isDigit ++
              (((rest.dropWhile Helpers.pyIsSpace).dropWhile Char.isDigit).takeWhile
                  Helpers.pyIsSpace ++ u :: tail)) := by
          have h₁ :=
            (List.takeWhile_append_dropWhile
              (p := Helpers.pyIsSpace) (l := rest)).symm
          have h₂ :=
            (List.takeWhile_append_dropWhile
              (p := Char.isDigit) (l := rest.dropWhile Helpers.pyIsSpace)).symm
          have h₃ :=
            (List.takeWhile_append_dropWhile
              (p := Helpers.pyIsSpace)
              (l := (rest.dropWhile Helpers.pyIsSpace).dropWhile Char.isDigit)).symm
          rw [hdd] at h₃
          rw [h₃] at h₂
          rw [h₂] at h₁
          exact h₁
        refine ⟨cs.takeWhile Helpers.pyIsSpace, c, rest.takeWhile Helpers.pyIsSpace,
          (rest.dropWhile Helpers.pyIsSpace).takeWhile Char.isDigit,
          ((rest.dropWhile Helpers.pyIsSpace).dropWhile Char.isDigit).takeWhile
            Helpers.pyIsSpace, u, tail,
          ?_, hsign, ?_, ?_, ?_, ?_, ?_, hcond.1, ?_, ?_⟩
        · conv_lhs => rw [hcs, hrest]
          simp [List.append_assoc]
        · exact fun x hx => List.mem_takeWhile_imp hx
        · exact fun x hx => List.mem_takeWhile_imp hx
        · intro hnil
          exact hdig (by rw [hnil]; rfl)
        · exact fun x hx => List.mem_takeWhile_imp hx
        · exact fun x hx => List.mem_takeWhile_imp hx
        · intro x hx
          have h₄ : tail.dropWhile Helpers.pyIsSpace = [] := by
            have h₅ := hcond.2
            rwa [List.isEmpty_iff] at h₅
          exact List.dropWhile_eq_nil_iff.mp h₄ x hx
        · rw [← hv]
          by_cases hc : c = '-' <;> simp [hc]

/-- Backward half of the claim C7 characterization: every relaxed
sign-digits-unit decomposition is accepted by parse_offset with the matching
value. -/
theorem parse_offset_ok_backward (cs : List Char) (v : Int)
    (h : Helpers.RelaxedOffset cs v) : Helpers.parse_offset cs = .ok v := by
  obtain ⟨w₁, sgn, w₂, ds, w₃, u, w₄, rfl, hsign, hw₁, hw₂, hds, hdsdig, hw₃, hu, hw₄, hv⟩ := h
  obtain ⟨huD, huP⟩ := unit_char_not_digit_not_space u hu
  have hsgnP : Helpers.pyIsSpace sgn = false := by
    rcases hsign with rfl | rfl <;> decide
  rcases ds with _ | ⟨d, ds'⟩
  · exact absurd rfl hds
  have hdD : d.isDigit = true := hdsdig d (List.mem_cons_self d ds')
  have hdP : Helpers.pyIsSpace d = false := isDigit_not_pyIsSpace d hdD
  have hassoc : w₁ ++ sgn :: (w₂ ++ (d :: ds') ++ w₃ ++ u :: w₄)
      = w₁ ++ sgn :: (w₂ ++ ((d :: ds') ++ (w₃ ++ u :: w₄))) := by
    simp [List.append_assoc]
  rw [hassoc]
  have h1 : (w₁ ++ sgn :: (w₂ ++ ((d :: ds') ++ (w₃ ++ u :: w₄)))).dropWhile
      Helpers.pyIsSpace = sgn :: (w₂ ++ ((d :: ds') ++ (w₃ ++ u :: w₄))) := by
    rw [dropWhile_append_all _ _ _ hw₁]
    simp [List.dropWhile_cons, hsgnP]
  have h2 : (w₂ ++ ((d :: ds') ++ (w₃ ++ u :: w₄))).dropWhile Helpers.pyIsSpace
      = (d :: ds') ++ (w₃ ++ u :: w₄) := by
    rw [dropWhile_append_all _ _ _ hw₂]
    simp [List.dropWhile_cons, hdP]
  have hunits : (w₃ ++ u :: w₄).takeWhile Char.isDigit = [] := by
    rcases w₃ with _ | ⟨c₃, t₃⟩
    · simp [List.takeWhile_cons, huD]
    · have hc₃ : Helpers.pyIsSpace c₃ = true := hw₃ c₃ (List.mem_cons_self _ _)
      simp [List.takeWhile_cons, pyIsSpace_not_isDigit c₃ hc₃]
  have h3 : ((d :: ds') ++ (w₃ ++ u :: w₄)).takeWhile Char.isDigit = d :: ds' := by
    rw [takeWhile_append_all _ _ _ hdsdig, hunits, List.append_nil]
  have h4 : ((d :: ds') ++ (w₃ ++ u :: w₄)).dropWhile Char.isDigit = w₃ ++ u :: w₄ := by
    rw [dropWhile_append_all _ _ _ hdsdig]
    rcases w₃ with _ | ⟨c₃, t₃⟩
    · simp [List.dropWhile_cons, huD]
    · have hc₃ : Helpers.pyIsSpace c₃ = true := hw₃ c₃ (List.mem_cons_self _ _)
      simp [List.dropWhile_cons, pyIsSpace_not_isDigit c₃ hc₃]
  have h5 : (w₃ ++ u :: w₄).dropWhile Helpers.pyIsSpace = u :: w₄ := by
    rw [dropWhile_append_all _ _ _ hw₃]
    simp [List.dropWhile_cons, huP]
  have hw4nil : w₄.dropWhile Helpers.pyIsSpace = [] :=
    List.dropWhile_eq_nil_iff.mpr hw₄
  have hmatch : Helpers.matchOffset (w₁ ++ sgn :: (w₂ ++ ((d :: ds') ++ (w₃ ++ u :: w₄))))
      = some { sign := sgn, digits := d :: ds', unit := u.toLower } := by
    unfold Helpers.matchOffset
    simp only [h1, h2, h3, h4, h5, hw4nil]
    rw [if_pos hsign]
    simp [hu]
  unfold Helpers.parse_offset
  rw [hmatch]
  simp only [h1, List.isEmpty_cons, Bool.false_eq_true, if_false]
  rcases hsign with rfl | rfl <;> simp [hv]

/-- Mapping a key-preserving function over a preference store commutes with
looking a key up. -/
theorem PrefStore.find?_map_key_preserving (f : DB.PrefRow → DB.PrefRow)
    (hf : ∀ p, (f p).key = p.key) (store : DB.PrefStore) (key : String) :
    (store.map f).find? (fun p => p.key = key)
      = (store.find? (fun p => p.key = key)).map f := by
  rw [List.find?_map]
  have hpf : ((fun p => decide (p.key = key)) ∘ f) = fun p => decide (p.key = key) := by
    funext r
    simp [Function.comp, hf]
  rw [hpf]

/-- Mapping an id-preserving function over a task store commutes with looking
an id up. -/
theorem TaskStore.find?_map_id_preserving (f : DB.TaskRow → DB.TaskRow)
    (hf : ∀ r, (f r).id = r.id) (store : DB.TaskStore) (task_id : Nat) :
    (store.map f).find? (fun r => r.id = task_id)
      = (store.find? (fun r => r.id = task_id)).map f := by
  rw [List.find?_map]
  have hpf : ((fun r => decide (r.id = task_id)) ∘ f) = fun r => decide (r.id = task_id) := by
    funext r
    simp [Function.comp, hf]
  rw [hpf]

/-- Claim C3, first helper: what update_habit does on an existing key. -/
theorem update_habit_existing (now : ℚ) (store : DB.PrefStore)
    (key value source : String) (boost : ℚ) (r : DB.PrefRow)
    (hb : 0 ≤ boost ∧ boost ≤ 1) (hsrc : source = "用户直说" ∨ source = "AI推断")
    (hr : store.find? (fun p => p.key = key) = some r) :
    ∃ s₂, DB.update_habit now store key value boost source = .ok s₂ ∧
      (s₂.find? (fun p => p.key = key)).map DB.PrefRow.confidence
        = some (min 1 (r.confidence + boost)) := by
  have hrun : DB.update_habit now store key value boost source
      = .ok (store.map (fun p => if p.key = key then
          { p with value := value, confidence := min 1 (r.confidence + boost),
                   source := source, updated_at := now } else p)) := by
    unfold DB.update_habit
    rw [if_neg (not_not.mpr hb), if_neg (not_not.mpr hsrc), hr]
  refine ⟨_, hrun, ?_⟩
  rw [PrefStore.find?_map_key_preserving _
    (fun p => by by_cases h : p.key = key <;> simp [h]) store key, hr]
  have hkey : r.key = key := by simpa using List.find?_some hr
  simp [hkey]

/-- Claim C3, second helper: what update_habit does on an absent key. -/
theorem update_habit_absent (now : ℚ) (store : DB.PrefStore)
    (key value source : String) (boost : ℚ)
    (hb : 0 ≤ boost ∧ boost ≤ 1) (hsrc : source = "用户直说" ∨ source = "AI推断")
    (hr : store.find? (fun p => p.key = key) = none) :
    DB.update_habit now store key value boost source
      = .ok (store ++ [{ key := key, value := value,
                         confidence := min 1 (Config.PL_HABIT_INITIAL_CONFIDENCE + boost),
                         source := source, created_at := now, updated_at := now }]) := by
  unfold DB.update_habit
  rw [if_neg (not_not.mpr hb), if_neg (not_not.mpr hsrc), hr]

/-- Claim C3, third helper: every row a successful update_habit leaves in the
store either carries a freshly capped confidence or was already there. -/
theorem update_habit_cap (now : ℚ) (store : DB.PrefStore)
    (key value source : String) (boost : ℚ) (s₂ : DB.PrefStore) (row : DB.PrefRow)
    (h : DB.update_habit now store key value boost source = .ok s₂)
    (hmem : row ∈ s₂) : row.confidence ≤ 1 ∨ row ∈ store := by
  unfold DB.update_habit at h
  split_ifs at h
  rcases hfind : store.find? (fun p => p.key = key) with _ | r
  · rw [hfind] at h
    injection h with h
    subst h
    rcases List.mem_append.mp hmem with hmem | hmem
    · exact Or.inr hmem
    · simp only [List.mem_singleton] at hmem
      subst hmem
      exact Or.inl (min_le_left _ _)
  · rw [hfind] at h
    injection h with h
    subst h
    rcases List.mem_map.mp hmem with ⟨p, hp, rfl⟩
    by_cases hk : p.key = key
    · simp only [hk, if_true]
      exact Or.inl (min_le_left _ _)
    · right
      simpa [hk] using hp

/-- Claim C3: for boosts in [0,1], update_habit on an existing key sets its
confidence to min 1 (old + boost); on an absent key it inserts a row with
confidence min 1 (PL_HABIT_INITIAL_CONFIDENCE + boost); two successive calls
on an initially absent key yield exactly
min 1 (min 1 (base + b₁) + b₂); and every row a successful call stores is
either capped at 1 or was already in the store, so the stored confidence
never exceeds 1 over any sequence of calls. -/
theorem update_habit_confidence_policy
    (now₁ now₂ : ℚ) (store : DB.PrefStore) (key v₁ v₂ src : String) (b₁ b₂ : ℚ)
    (hb₁ : 0 ≤ b₁ ∧ b₁ ≤ 1) (hb₂ : 0 ≤ b₂ ∧ b₂ ≤ 1)
    (hsrc : src = "用户直说" ∨ src = "AI推断") :
    (∀ r, store.find? (fun p => p.key = key) = some r →
      ∃ s, DB.update_habit now₁ store key v₁ b₁ src = .ok s ∧
        (s.find? (fun p => p.key = key)).map DB.PrefRow.confidence
          = some (min 1 (r.confidence + b₁)))
    ∧ (store.find? (fun p => p.key = key) = none →
      ∃ s, DB.update_habit now₁ store key v₁ b₁ src = .ok s ∧
        (s.find? (fun p => p.key = key)).map DB.PrefRow.confidence
          = some (min 1 (Config.PL_HABIT_INITIAL_CONFIDENCE + b₁)))
    ∧ (store.find? (fun p => p.key = key) = none →
      ∃ s₁ s₂, DB.update_habit now₁ store key v₁ b₁ src = .ok s₁ ∧
        DB.update_habit now₂ s₁ key v₂ b₂ src = .ok s₂ ∧
        (s₂.find? (fun p => p.key = key)).map DB.PrefRow.confidence
          = some (min 1 (min 1 (Config.PL_HABIT_INITIAL_CONFIDENCE + b₁) + b₂)))
    ∧ (∀ s row, DB.update_habit now₁ store key v₁ b₁ src = .ok s → row ∈ s →
        row.confidence ≤ 1 ∨ row ∈ store) := by
  have habsent := fun hr =>
    update_habit_absent now₁ store key v₁ src b₁ hb₁ hsrc hr
  have hfind₁ : ∀ hr : store.find? (fun p => p.key = key) = none,
      ((store ++ [{ key := key, value := v₁,
                    confidence := min 1 (Config.PL_HABIT_INITIAL_CONFIDENCE + b₁),
                    source := src, created_at := now₁,
                    updated_at := now₁ }]) : DB.PrefStore).find? (fun p => p.key = key)
        = some { key := key, value := v₁,
                 confidence := min 1 (Config.PL_HABIT_INITIAL_CONFIDENCE + b₁),
                 source := src, created_at := now₁, updated_at := now₁ } := by
    intro hr
    rw [List.find?_append, hr]
    simp
  refine ⟨?_, ?_, ?_, ?_⟩
  · intro r hr
    exact update_habit_existing now₁ store key v₁ src b₁ r hb₁ hsrc hr
  · intro hr
    refine ⟨_, habsent hr, ?_⟩
    rw [hfind₁ hr]
    rfl
  · intro hr
    obtain ⟨s₂, hrun₂, hconf⟩ :=
      update_habit_existing now₂ _ key v₂ src b₂ _ hb₂ hsrc (hfind₁ hr)
    exact ⟨_, s₂, habsent hr, hrun₂, hconf⟩
  · intro s row hrun hmem
    exact update_habit_cap now₁ store key v₁ src b₁ s row hrun hmem

/-- Witness for claim C3 at a concrete input: two boosts of 1/2 then 9/10 on
a fresh key, applied through the theorem, give exactly the nested-min value. -/
theorem update_habit_confidence_policy_witness :
    ∃ s₁ s₂, DB.update_habit 0 [] "k" "v" (1/2) "AI推断" = .ok s₁ ∧
      DB.update_habit 7 s₁ "k" "w" (9/10) "AI推断" = .ok s₂ ∧
      (s₂.find? (fun p => p.key = "k")).map DB.PrefRow.confidence
        = some (min 1 (min 1 (Config.PL_HABIT_INITIAL_CONFIDENCE + 1/2) + 9/10)) :=
  (update_habit_confidence_policy 0 7 [] "k" "v" "w" "AI推断" (1/2) (9/10)
    (by norm_num) (by norm_num) (Or.inr rfl)).2.2.1 rfl

/-- Claim C9: with a valid status, update_task_status on an id no row carries
returns normally with every row unchanged (the UPDATE matches zero rows), and
update_task_due_time on such an id likewise leaves the store unchanged. -/
theorem update_missing_task_id_is_noop
    (store : DB.TaskStore) (task_id : Nat) (status : String) (due : Option DB.TimeStr)
    (hstatus : status = "pending" ∨ status = "done" ∨ status = "ignored" ∨ status = "cancelled")
    (habsent : ∀ r ∈ store, r.id ≠ task_id) :
    DB.update_task_status store task_id status = .ok store
    ∧ DB.update_task_due_time store task_id due = store := by
  have hmap : ∀ (f : DB.TaskRow → DB.TaskRow),
      store.map (fun r => if r.id = task_id then f r else r) = store := by
    intro f
    have h₁ : store.map (fun r => if r.id = task_id then f r else r) = store.map id := by
      apply List.map_congr_left
      intro r hr
      simp [habsent r hr]
    simpa using h₁
  constructor
  · unfold DB.update_task_status
    rw [if_neg (not_not.mpr hstatus)]
    exact congrArg Except.ok (hmap _)
  · exact hmap _

/-- Witness for claim C9: a store holding the single task with id 1, updated
at the absent id 2, through the theorem. -/
theorem update_missing_task_id_is_noop_witness :
    DB.update_task_status
        [{ id := 1, content := "buy milk", due_time := none, category := none,
           priority := 3, status := "pending", created_at := .aware 0,
           last_notified_at := none, notification_count := 0 }] 2 "done"
      = .ok [{ id := 1, content := "buy milk", due_time := none, category := none,
               priority := 3, status := "pending", created_at := .aware 0,
               last_notified_at := none, notification_count := 0 }]
    ∧ DB.update_task_due_time
        [{ id := 1, content := "buy milk", due_time := none, category := none,
           priority := 3, status := "pending", created_at := .aware 0,
           last_notified_at := none, notification_count := 0 }] 2 none
      = [{ id := 1, content := "buy milk", due_time := none, category := none,
           priority := 3, status := "pending", created_at := .aware 0,
           last_notified_at := none, notification_count := 0 }] :=
  update_missing_task_id_is_noop _ 2 "done" none (Or.inr (Or.inl rfl))
    (by intro r hr; simp at hr; subst hr; decide)

/-- Claim C6: a priority outside [1,5] is rejected by the storage layer
add_task with a ValueError and nothing inserted (the transaction holds no
INSERT), while the Interpreter validate_priority coerces the same value,
whether int or numeric string, to the default 3. -/
theorem add_task_rejects_validate_priority_coerces
    (p : Int) (hp : ¬ (1 ≤ p ∧ p ≤ 5)) :
    (∀ (now : ℚ) (store : DB.TaskStore) (content : String)
       (due : Option DB.TimeStr) (cat : Option String),
       DB.add_task now store content due cat p = .error "priority 必须在 1 到 5 之间")
    ∧ Interp.validate_priority (.intV p) = 3
    ∧ Interp.validate_priority (.strV (some p)) = 3 := by
  refine ⟨?_, ?_, ?_⟩
  · intro now store content due cat
    unfold DB.add_task
    rw [if_pos hp]
  · simp [Interp.validate_priority, hp]
  · simp [Interp.validate_priority, hp]

/-- Witness for claim C6 at the boundary inputs 0 and 6. -/
theorem add_task_rejects_validate_priority_coerces_witness :
    DB.add_task 0 [] "x" none none 0 = .error "priority 必须在 1 到 5 之间"
    ∧ Interp.validate_priority (.intV 6) = 3 :=
  ⟨(add_task_rejects_validate_priority_coerces 0 (by decide)).1 0 [] "x" none none,
   (add_task_rejects_validate_priority_coerces 6 (by decide)).2.1⟩

/-- Dismissing a decidable guard: an implication from the guard failing is
the disjunction with the guard holding. -/
theorem not_imp_iff_or_aux {q A : Prop} [Decidable q] : ((¬ q → A) ↔ (q ∨ A)) := by
  by_cases hq : q <;> simp [hq]

/-- Claim C2: under the default configuration, should_notify_task suppresses
a priority-at-least-4 task exactly when its notification count has reached 5
or a parseable last notification lies less than 15 minutes in the past;
suppresses a priority-3 task exactly when the count has reached 3 or less
than 30 minutes have elapsed; and notifies a priority-at-most-2 task exactly
when it has never been notified. -/
theorem should_notify_task_policy (now : ℚ) (t : DB.TaskRow) :
    (t.priority ≥ 4 →
      (Daemon.should_notify_task now t = false ↔
        t.notification_count ≥ 5 ∨
        ∃ t₀, DB.dueInstant t.last_notified_at = some t₀ ∧ now - t₀ < 15 * 60))
    ∧ (t.priority = 3 →
      (Daemon.should_notify_task now t = false ↔
        t.notification_count ≥ 3 ∨
        ∃ t₀, DB.dueInstant t.last_notified_at = some t₀ ∧ now - t₀ < 30 * 60))
    ∧ (t.priority ≤ 2 →
      (Daemon.should_notify_task now t = true ↔ t.notification_count = 0)) := by
  unfold Daemon.should_notify_task
  refine ⟨?_, ?_, ?_⟩
  · intro hp
    rw [if_pos hp]
    rcases h : t.last_notified_at with _ | ts
    · simp [DB.dueInstant, h, Config.PL_DAEMON_HIGH_PRIORITY_MAX_COUNT]
    · cases ts <;>
        simp [DB.dueInstant, h, DB.parse_time,
          Config.PL_DAEMON_HIGH_PRIORITY_MAX_COUNT,
          Config.PL_DAEMON_HIGH_PRIORITY_INTERVAL] <;>
        rw [← not_le] <;>
        exact not_imp_iff_or_aux
  · intro hp
    have hp4 : ¬ t.priority ≥ 4 := by omega
    rw [if_neg hp4, if_pos hp]
    rcases h : t.last_notified_at with _ | ts
    · simp [DB.dueInstant, h, Config.PL_DAEMON_MEDIUM_PRIORITY_MAX_COUNT]
    · cases ts <;>
        simp [DB.dueInstant, h, DB.parse_time,
          Config.PL_DAEMON_MEDIUM_PRIORITY_MAX_COUNT,
          Config.PL_DAEMON_MEDIUM_PRIORITY_INTERVAL] <;>
        rw [← not_le] <;>
        exact not_imp_iff_or_aux
  · intro hp
    have hp4 : ¬ t.priority ≥ 4 := by omega
    have hp3 : ¬ t.priority = 3 := by omega
    rw [if_neg hp4, if_neg hp3]
    simp

/-- Witness for claim C2: a priority-5 task last notified 10 minutes ago with
count 2 is suppressed, and a never-notified priority-2 task is notified, both
through the theorem at concrete inputs. -/
theorem should_notify_task_policy_witness :
    Daemon.should_notify_task 700
        { id := 1, content := "t", due_time := none, category := none,
          priority := 5, status := "pending", created_at := .aware 0,
          last_notified_at := some (.aware 100), notification_count := 2 }
      = false
    ∧ Daemon.should_notify_task 700
        { id := 2, content := "t", due_time := none, category := none,
          priority := 2, status := "pending", created_at := .aware 0,
          last_notified_at := none, notification_count := 0 }
      = true :=
  ⟨((should_notify_task_policy 700 _).1 (by decide)).mpr
      (Or.inr ⟨100, rfl, by norm_num⟩),
   ((should_notify_task_policy 700 _).2.2 (by decide)).mpr rfl⟩

/-- Claim C4: for a task whose stored due time parses to the instant T, a
postponement by m minutes (m at most 4320, the clamp the dialog handler
applies first) succeeds and rewrites the due time to exactly T plus m
minutes, for every current instant now (in particular long after T), and
stamps the notification time to now while incrementing the count. -/
theorem postpone_task_uses_original_due
    (now : ℚ) (store : DB.TaskStore) (task_id : Nat) (m : Int)
    (task : DB.TaskRow) (ts : DB.TimeStr) (T : ℚ)
    (hm : m ≤ 4320)
    (hfind : DB.get_task_by_id store task_id = some task)
    (hdue : task.due_time = some ts)
    (hparse : DB.parse_time ts = .ok T) :
    Daemon.clamp_postpone_minutes m = m
    ∧ (Daemon.postpone_task now store task_id m).1 = true
    ∧ DB.get_task_by_id (Daemon.postpone_task now store task_id m).2 task_id
        = some { task with due_time := some (.aware (T + m * 60)),
                           last_notified_at := some (.aware now),
                           notification_count := task.notification_count + 1 } := by
  have hid : task.id = task_id := by
    simpa using List.find?_some hfind
  have hrun : Daemon.postpone_task now store task_id m
      = (true, DB.update_task_notification_time now
          (DB.update_task_due_time store task_id (some (.aware (T + m * 60)))) task_id) := by
    unfold Daemon.postpone_task
    simp only [hfind, hdue, hparse]
  refine ⟨min_eq_left hm, by rw [hrun], ?_⟩
  rw [hrun]
  unfold DB.get_task_by_id DB.update_task_notification_time DB.update_task_due_time
  rw [TaskStore.find?_map_id_preserving _
    (fun r => by by_cases hr : r.id = task_id <;> simp [hr]) _ task_id]
  rw [TaskStore.find?_map_id_preserving _
    (fun r => by by_cases hr : r.id = task_id <;> simp [hr]) store task_id]
  unfold DB.get_task_by_id at hfind
  rw [hfind]
  simp [hid]

/-- Witness for claim C4: a task due at instant 1000, postponed 30 minutes at
the much later instant 90000, through the theorem. -/
theorem postpone_task_uses_original_due_witness :
    DB.get_task_by_id
        (Daemon.postpone_task 90000
          [{ id := 1, content := "call mom", due_time := some (.aware 1000),
             category := none, priority := 3, status := "pending",
             created_at := .aware 0, last_notified_at := none,
             notification_count := 1 }] 1 30).2 1
      = some { id := 1, content := "call mom", due_time := some (.aware (1000 + 30 * 60)),
               category := none, priority := 3, status := "pending",
               created_at := .aware 0, last_notified_at := some (.aware 90000),
               notification_count := 2 } :=
  (postpone_task_uses_original_due 90000
    [{ id := 1, content := "call mom", due_time := some (.aware 1000),
       category := none, priority := 3, status := "pending",
       created_at := .aware 0, last_notified_at := none,
       notification_count := 1 }] 1 30
    { id := 1, content := "call mom", due_time := some (.aware 1000),
      category := none, priority := 3, status := "pending",
      created_at := .aware 0, last_notified_at := none,
      notification_count := 1 } (.aware 1000) 1000
    (by decide) rfl rfl rfl).2.2

/-- Claim C5: get_upcoming_tasks returns exactly the stored tasks of the
requested status whose due time parses (aware, or naive read in the local
zone) to an instant in the half-open window from now exclusive to
now + hours inclusive; unparsable, empty and NULL due times are skipped.  At
hours = 24 a pending task due 23 hours ahead is returned while tasks due 25
hours ahead, one hour ago, or one minute ago are not. -/
theorem get_upcoming_tasks_window (now : ℚ) (hours : Int) (status : String)
    (store : DB.TaskStore) :
    (∀ r, r ∈ DB.get_upcoming_tasks now hours status store ↔
      r ∈ store ∧ r.status = status ∧
      ∃ t, DB.dueInstant r.due_time = some t ∧ now < t ∧ t ≤ now + hours * 3600)
    ∧ (∀ r, r ∈ store → r.status = "pending" →
        r.due_time = some (.aware (now + 23 * 3600)) →
        r ∈ DB.get_upcoming_tasks now 24 "pending" store)
    ∧ (∀ r, r.due_time = some (.aware (now + 25 * 3600)) →
        r ∉ DB.get_upcoming_tasks now 24 "pending" store)
    ∧ (∀ r, r.due_time = some (.aware (now - 3600)) →
        r ∉ DB.get_upcoming_tasks now 24 "pending" store)
    ∧ (∀ r, r.due_time = some (.aware (now - 60)) →
        r ∉ DB.get_upcoming_tasks now 24 "pending" store) := by
  have hmain : ∀ (hrs : Int) (st : String) (r : DB.TaskRow),
      r ∈ DB.get_upcoming_tasks now hrs st store ↔
      r ∈ store ∧ r.status = st ∧
      ∃ t, DB.dueInstant r.due_time = some t ∧ now < t ∧ t ≤ now + hrs * 3600 := by
    intro hrs st r
    rcases h : r.due_time with _ | ts
    · simp [DB.get_upcoming_tasks, List.mem_filter, h, DB.dueInstant]
    · cases ts <;>
        simp [DB.get_upcoming_tasks, List.mem_filter, h, DB.dueInstant, and_assoc] <;>
        exact fun _ => ⟨fun ⟨h₁, h₂, h₃⟩ => ⟨h₃, h₁, h₂⟩, fun ⟨h₃, h₁, h₂⟩ => ⟨h₁, h₂, h₃⟩⟩
  refine ⟨?_, ?_, ?_, ?_, ?_⟩
  · exact fun r => hmain hours status r
  · intro r hr hst hdue
    refine (hmain 24 "pending" r).mpr ⟨hr, hst, now + 23 * 3600, ?_, ?_, ?_⟩
    · rw [hdue]; rfl
    · linarith
    · push_cast; linarith
  · intro r hdue hmem
    obtain ⟨-, -, t, ht, -, hle⟩ := (hmain 24 "pending" r).mp hmem
    rw [hdue] at ht
    injection ht with ht
    subst ht
    push_cast at hle
    linarith
  · intro r hdue hmem
    obtain ⟨-, -, t, ht, hlt, -⟩ := (hmain 24 "pending" r).mp hmem
    rw [hdue] at ht
    injection ht with ht
    subst ht
    linarith
  · intro r hdue hmem
    obtain ⟨-, -, t, ht, hlt, -⟩ := (hmain 24 "pending" r).mp hmem
    rw [hdue] at ht
    injection ht with ht
    subst ht
    linarith

/-- Witness for claim C5 at now = 0 on a four-task pending store: the task
due 23 hours ahead is returned, those due 25 hours ahead, one hour ago and
one minute ago are not. -/
theorem get_upcoming_tasks_window_witness :
    ({ id := 1, content := "a", due_time := some (.aware (0 + 23 * 3600)),
       category := none, priority := 3, status := "pending",
       created_at := .aware 0, last_notified_at := none,
       notification_count := 0 } : DB.TaskRow)
      ∈ DB.get_upcoming_tasks 0 24 "pending"
        [{ id := 1, content := "a", due_time := some (.aware (0 + 23 * 3600)),
           category := none, priority := 3, status := "pending",
           created_at := .aware 0, last_notified_at := none,
           notification_count := 0 },
         { id := 2, content := "b", due_time := some (.aware (0 + 25 * 3600)),
           category := none, priority := 3, status := "pending",
           created_at := .aware 0, last_notified_at := none,
           notification_count := 0 }]
    ∧ ({ id := 2, content := "b", due_time := some (.aware (0 + 25 * 3600)),
         category := none, priority := 3, status := "pending",
         created_at := .aware 0, last_notified_at := none,
         notification_count := 0 } : DB.TaskRow)
      ∉ DB.get_upcoming_tasks 0 24 "pending"
        [{ id := 1, content := "a", due_time := some (.aware (0 + 23 * 3600)),
           category := none, priority := 3, status := "pending",
           created_at := .aware 0, last_notified_at := none,
           notification_count := 0 },
         { id := 2, content := "b", due_time := some (.aware (0 + 25 * 3600)),
           category := none, priority := 3, status := "pending",
           created_at := .aware 0, last_notified_at := none,
           notification_count := 0 }]
    ∧ ({ id := 3, content := "c", due_time := some (.aware (0 - 3600)),
         category := none, priority := 3, status := "pending",
         created_at := .aware 0, last_notified_at := none,
         notification_count := 0 } : DB.TaskRow)
      ∉ DB.get_upcoming_tasks 0 24 "pending" []
    ∧ ({ id := 4, content := "d", due_time := some (.aware (0 - 60)),
         category := none, priority := 3, status := "pending",
         created_at := .aware 0, last_notified_at := none,
         notification_count := 0 } : DB.TaskRow)
      ∉ DB.get_upcoming_tasks 0 24 "pending" [] :=
  ⟨(get_upcoming_tasks_window 0 24 "pending" _).2.1 _
      (List.mem_cons_self _ _) rfl rfl,
   (get_upcoming_tasks_window 0 24 "pending" _).2.2.1 _ rfl,
   (get_upcoming_tasks_window 0 24 "pending" _).2.2.2.1 _ rfl,
   (get_upcoming_tasks_window 0 24 "pending" _).2.2.2.2 _ rfl⟩

/-- Claim C7 counterexample: parse_offset accepts the uppercase-unit string
+1H, returning 3600 seconds, and the whitespace-padded string made of a
space, +1h and a space, though neither matches the pattern the claim states
(anchored sign, digits, one lowercase unit letter, no whitespace). -/
theorem parse_offset_strict_pattern_counterexample :
    Helpers.parse_offset ['+', '1', 'H'] = .ok 3600
    ∧ Helpers.specOffsetPattern ['+', '1', 'H'] = false
    ∧ Helpers.parse_offset [' ', '+', '1', 'h', ' '] = .ok 3600
    ∧ Helpers.specOffsetPattern [' ', '+', '1', 'h', ' '] = false :=
  ⟨rfl, rfl, rfl, rfl⟩

/-- Claim C7 (amended): parse_offset succeeds exactly on the strings
admitting the relaxed decomposition the source regex recognizes - optional
whitespace before the sign, between sign and digits, between digits and
unit, and trailing; a mandatory sign; one or more digits; one unit letter
accepted in either case - and returns the magnitude times the unit seconds
(seconds, minutes, hours, days, weeks), negated when the sign is the minus
character; in particular +1h yields 3600 seconds, -15m yields -900 seconds,
and 2h (missing sign) and +1x (invalid unit) fail with ValueError. -/
theorem parse_offset_relaxed_characterization :
    (∀ (cs : List Char) (v : Int),
      Helpers.parse_offset cs = .ok v ↔ Helpers.RelaxedOffset cs v)
    ∧ Helpers.parse_offset ['+', '1', 'h'] = .ok 3600
    ∧ Helpers.parse_offset ['-', '1', '5', 'm'] = .ok (-900)
    ∧ Helpers.parse_offset ['2', 'h'] = .error "offset 格式不合法"
    ∧ Helpers.parse_offset ['+', '1', 'x'] = .error "offset 格式不合法" :=
  ⟨fun cs v => ⟨parse_offset_ok_forward cs v, parse_offset_ok_backward cs v⟩,
   rfl, rfl, rfl, rfl⟩

/-- Claim C1 (code bug): the bootstrap-plus-migration routine run twice is
error-free, duplicate-free and leaves the status CHECK accepting cancelled
when the pre-migration schema is the already-four-value form (fresh store or
re-run), and likewise on a three-value store whose notification columns were
added by an earlier migration run; but on the known older three-value schema,
which does not yet carry the notification columns, the status-CHECK rebuild
runs before migrate_database adds those columns and its INSERT-SELECT row
copy names them on the old table, so the very first run fails with
OperationalError no-such-column last_notified_at instead of succeeding as
the specification requires. -/
theorem migration_rebuild_order_bug :
    DB.init_db (some DB.olderThreeValuedStore)
      = .error (.noSuchColumn "last_notified_at")
    ∧ (∃ s, DB.init_db none = .ok s ∧ DB.init_db (some s) = .ok s
        ∧ s.tasks.statusCheck = .fourValued ∧ s.indexes.Nodup)
    ∧ (∃ s₁ s₂, DB.init_db (some DB.threeValuedStoreWithColumns) = .ok s₁
        ∧ s₁.tasks.statusCheck = .fourValued ∧ s₁.indexes.Nodup
        ∧ DB.init_db (some s₁) = .ok s₂ ∧ DB.init_db (some s₂) = .ok s₂
        ∧ s₂.tasks.statusCheck = .fourValued ∧ s₂.indexes.Nodup) := by
  refine ⟨rfl,
    ⟨{ tasks := { statusCheck := .fourValued, hasLastNotifiedAt := true,
                  hasNotificationCount := true },
       prefsHasCreatedAt := true, memoryHasIsProcessed := true,
       indexes := ["idx_tasks_status", "idx_tasks_due_time", "idx_tasks_category",
                   "idx_preferences_key", "idx_preferences_confidence",
                   "idx_memory_logs_timestamp", "idx_memory_logs_context_tag",
                   "idx_tasks_last_notified_at", "idx_tasks_notification_count",
                   "idx_memory_logs_is_processed"] },
     rfl, rfl, rfl, by decide⟩,
    ⟨{ tasks := { statusCheck := .fourValued, hasLastNotifiedAt := true,
                  hasNotificationCount := true },
       prefsHasCreatedAt := true, memoryHasIsProcessed := true,
       indexes := ["idx_preferences_key", "idx_preferences_confidence",
                   "idx_memory_logs_timestamp", "idx_memory_logs_context_tag",
                   "idx_memory_logs_is_processed", "idx_tasks_last_notified_at",
                   "idx_tasks_notification_count"] },
     { tasks := { statusCheck := .fourValued, hasLastNotifiedAt := true,
                  hasNotificationCount := true },
       prefsHasCreatedAt := true, memoryHasIsProcessed := true,
       indexes := ["idx_preferences_key", "idx_preferences_confidence",
                   "idx_memory_logs_timestamp", "idx_memory_logs_context_tag",
                   "idx_memory_logs_is_processed", "idx_tasks_last_notified_at",
                   "idx_tasks_notification_count", "idx_tasks_status",
                   "idx_tasks_due_time", "idx_tasks_category"] },
     rfl, rfl, by decide, rfl, rfl, rfl, by decide⟩⟩

/-- When the pure span scan finds the first balanced span S and json.loads
rejects S, the interleaved scan of _extract_first_json returns none. -/
theorem scanLoop_none_of_spanLoop_some (loads : List Char → Option Interp.Json.JVal) :
    ∀ (cs : List Char) (d : Int) (i e : Bool) (seen S : List Char),
      Interp.Json.spanLoop cs d i e seen = some S → loads S = none →
      Interp.Json.scanLoop loads cs d i e seen = none := by
  intro cs
  induction cs with
  | nil =>
    intro d i e seen S h hl
    simp [Interp.Json.spanLoop] at h
  | cons ch rest ih =>
    intro d i e seen S h hl
    simp only [Interp.Json.spanLoop] at h
    simp only [Interp.Json.scanLoop]
    split_ifs at h ⊢ <;>
      first
        | exact ih _ _ _ _ _ h hl
        | (injection h with h; subst h; rw [hl])

/-- When the braces of the text never balance, the interleaved scan of
_extract_first_json returns none. -/
theorem scanLoop_none_of_spanLoop_none (loads : List Char → Option Interp.Json.JVal) :
    ∀ (cs : List Char) (d : Int) (i e : Bool) (seen : List Char),
      Interp.Json.spanLoop cs d i e seen = none →
      Interp.Json.scanLoop loads cs d i e seen = none := by
  intro cs
  induction cs with
  | nil =>
    intro d i e seen h
    rfl
  | cons ch rest ih =>
    intro d i e seen h
    simp only [Interp.Json.spanLoop] at h
    simp only [Interp.Json.scanLoop]
    split_ifs at h ⊢ <;> exact ih _ _ _ _ h

/-- Claim C10: _extract_first_json returns the parsed object when the whole
text is one valid JSON object; otherwise it attempts only the first balanced
brace span (tracked through string quoting and escapes): when that span is
not valid JSON the result is none even if a valid object appears later, and
when the text has no opening brace, or the braces never balance, the result
is none. -/
theorem extract_first_json_first_span_only
    (loads : List Char → Option Interp.Json.JVal) (text : List Char) :
    (∀ l, text ≠ [] → loads text = some (.dict l) →
      Interp.Json.extract_first_json loads text = some (.dict l))
    ∧ (Interp.Json.fastPathFails (loads text) = true → '\x7b' ∉ text →
      Interp.Json.extract_first_json loads text = none)
    ∧ (∀ S, Interp.Json.fastPathFails (loads text) = true →
      Interp.Json.firstBalancedSpan text = some S → loads S = none →
      Interp.Json.extract_first_json loads text = none)
    ∧ (Interp.Json.fastPathFails (loads text) = true →
      Interp.Json.firstBalancedSpan text = none →
      Interp.Json.extract_first_json loads text = none) := by
  have hempty : Interp.Json.extract_first_json loads [] = none := rfl
  refine ⟨?_, ?_, ?_, ?_⟩
  · intro l hne hload
    rcases text with _ | ⟨c, cs⟩
    · exact absurd rfl hne
    · unfold Interp.Json.extract_first_json
      simp only [hload, List.isEmpty_cons, Bool.false_eq_true, if_false]
  · intro hfast hnb
    rcases text with _ | ⟨c, cs⟩
    · exact hempty
    · have hidx : (c :: cs).findIdx? (fun x => x = '\x7b') = none := by
        rw [List.findIdx?_eq_none_iff]
        intro x hx
        simp only [decide_eq_false_iff_not]
        intro hxe
        exact hnb (hxe ▸ hx)
      unfold Interp.Json.extract_first_json
      rcases hlt : loads (c :: cs) with _ | v
      · simp only [hidx, List.isEmpty_cons, Bool.false_eq_true, if_false]
      · rcases v with l | l
        · rw [hlt] at hfast
          simp [Interp.Json.fastPathFails] at hfast
        · simp only [hlt, hidx, List.isEmpty_cons, Bool.false_eq_true, if_false]
  · intro S hfast hspan hloadS
    rcases text with _ | ⟨c, cs⟩
    · exact hempty
    · unfold Interp.Json.firstBalancedSpan at hspan
      rcases hidx : (c :: cs).findIdx? (fun x => x = '\x7b') with _ | start
      · rw [hidx] at hspan
        simp at hspan
      · rw [hidx] at hspan
        have hscan := scanLoop_none_of_spanLoop_some loads _ 0 false false [] S hspan hloadS
        unfold Interp.Json.extract_first_json
        rcases hlt : loads (c :: cs) with _ | v
        · simp only [hidx, hscan, List.isEmpty_cons, Bool.false_eq_true, if_false]
        · rcases v with l | l
          · rw [hlt] at hfast
            simp [Interp.Json.fastPathFails] at hfast
          · simp only [hlt, hidx, hscan, List.isEmpty_cons, Bool.false_eq_true, if_false]
  · intro hfast hspan
    rcases text with _ | ⟨c, cs⟩
    · exact hempty
    · unfold Interp.Json.firstBalancedSpan at hspan
      rcases hidx : (c :: cs).findIdx? (fun x => x = '\x7b') with _ | start
      · unfold Interp.Json.extract_first_json
        rcases hlt : loads (c :: cs) with _ | v
        · simp only [hidx, List.isEmpty_cons, Bool.false_eq_true, if_false]
        · rcases v with l | l
          · rw [hlt] at hfast
            simp [Interp.Json.fastPathFails] at hfast
          · simp only [hlt, hidx, List.isEmpty_cons, Bool.false_eq_true, if_false]
      · rw [hidx] at hspan
        have hscan := scanLoop_none_of_spanLoop_none loads _ 0 false false [] hspan
        unfold Interp.Json.extract_first_json
        rcases hlt : loads (c :: cs) with _ | v
        · simp only [hidx, hscan, List.isEmpty_cons, Bool.false_eq_true, if_false]
        · rcases v with l | l
          · rw [hlt] at hfast
            simp [Interp.Json.fastPathFails] at hfast
          · simp only [hlt, hidx, hscan, List.isEmpty_cons, Bool.false_eq_true, if_false]

/-- Witness for claim C10: a whole-text JSON object is returned, and a text
whose first balanced span is rejected by the parser yields none although a
parseable object follows it, both through the theorem. -/
theorem extract_first_json_first_span_only_witness :
    Interp.Json.extract_first_json
        (fun s => if s = ['\x7b', 'a', '\x7d'] then some (.dict 0) else none)
        ['\x7b', 'a', '\x7d'] = some (.dict 0)
    ∧ Interp.Json.extract_first_json
        (fun s => if s = ['\x7b', 'o', 'k', '\x7d'] then some (.dict 1) else none)
        ['x', '\x7b', 'b', '\x7d', ' ', '\x7b', 'o', 'k', '\x7d'] = none :=
  ⟨(extract_first_json_first_span_only _ _).1 0 (by decide) (by decide),
   (extract_first_json_first_span_only _ _).2.2.1 ['\x7b', 'b', '\x7d']
     (by decide) (by decide) (by decide)⟩

/-- Claim C8 (code bug): the daemon requests its logger with the keyword
argument log_file, which utils/logger.get_logger does not declare, so the
request raises TypeError; and setup_logger wires the file handler to
logs/app.log whatever the logger name, so no daemon.log output is ever
configured. -/
theorem daemon_logger_request_fails :
    (∃ e, Logger.daemon_logger_request = .error e)
    ∧ (Logger.setup_logger "daemon").logFile = "logs/app.log" :=
  ⟨⟨"TypeError: get_logger() got an unexpected keyword argument", rfl⟩, rfl⟩

